/-
Verification of the gesture-to-value logic of the react-native-awesome-slider
fork (two variants: src/src/slide.tsx and src/unnamed/part_000).

JavaScript numbers are modelled as JSNum: either NaN, a signed infinity, or an
exact rational.  Rational arithmetic idealises IEEE doubles (no rounding), but
the NaN / infinity propagation of the JS operators is modelled exactly, because
the slider divides by `width - thumbWidth` and by `sliderTotalValue()` and the
behaviour at zero divisors decides several claims.
-/
import Mathlib

/-- A JavaScript number: NaN, a signed infinity (`inf true` is plus infinity),
or a finite value idealised as an exact rational. -/
inductive JSNum where
  | nan : JSNum
  | inf : Bool → JSNum
  | num : ℚ → JSNum
deriving DecidableEq, Repr

namespace JSNum

/-- JS `+`. -/
def jadd : JSNum → JSNum → JSNum
  | nan, _ => nan
  | _, nan => nan
  | inf a, inf b => if a = b then inf a else nan
  | inf a, num _ => inf a
  | num _, inf b => inf b
  | num a, num b => num (a + b)

/-- JS unary minus. -/
def jneg : JSNum → JSNum
  | nan => nan
  | inf b => inf !b
  | num a => num (-a)

/-- JS `-`. -/
def jsub (a b : JSNum) : JSNum := jadd a (jneg b)

/-- JS `*`. -/
def jmul : JSNum → JSNum → JSNum
  | nan, _ => nan
  | _, nan => nan
  | inf a, inf b => inf (a == b)
  | inf a, num q => if q = 0 then nan else inf (a == decide (0 < q))
  | num q, inf b => if q = 0 then nan else inf (b == decide (0 < q))
  | num a, num b => num (a * b)

/-- JS `/` (division by zero gives a signed infinity, `0 / 0` gives NaN). -/
def jdiv : JSNum → JSNum → JSNum
  | nan, _ => nan
  | _, nan => nan
  | inf _, inf _ => nan
  | inf a, num q => if q = 0 then inf a else inf (a == decide (0 < q))
  | num _, inf _ => num 0
  | num a, num b =>
    if b = 0 then (if a = 0 then nan else inf (decide (0 < a))) else num (a / b)

/-- JS `Math.max` of two arguments (NaN absorbing). -/
def jmax : JSNum → JSNum → JSNum
  | nan, _ => nan
  | _, nan => nan
  | inf true, _ => inf true
  | _, inf true => inf true
  | inf false, b => b
  | a, inf false => a
  | num a, num b => num (max a b)

/-- JS `Math.min` of two arguments (NaN absorbing). -/
def jmin : JSNum → JSNum → JSNum
  | nan, _ => nan
  | _, nan => nan
  | inf false, _ => inf false
  | _, inf false => inf false
  | inf true, b => b
  | a, inf true => a
  | num a, num b => num (min a b)

/-- JS `<=` (any comparison with NaN is false). -/
def jle : JSNum → JSNum → Bool
  | nan, _ => false
  | _, nan => false
  | inf false, _ => true
  | _, inf false => false
  | inf true, inf true => true
  | inf true, num _ => false
  | num _, inf true => true
  | num a, num b => decide (a ≤ b)

/-- JS `<` (any comparison with NaN is false). -/
def jlt : JSNum → JSNum → Bool
  | nan, _ => false
  | _, nan => false
  | _, inf false => false
  | inf false, _ => true
  | inf true, _ => false
  | _, inf true => true
  | num a, num b => decide (a < b)

/-- JS `Math.round` (round half toward plus infinity). -/
def jround : JSNum → JSNum
  | nan => nan
  | inf b => inf b
  | num q => num ((⌊q + 1/2⌋ : ℤ) : ℚ)

/-- JS strict equality `=== 0`. -/
def jeqZero : JSNum → Bool
  | num q => decide (q = 0)
  | _ => false

/-- JS `x % 1 !== 0` (true when x is NaN, infinite, or a non-integer). -/
def jfrac : JSNum → Bool
  | nan => true
  | inf _ => true
  | num q => decide (q.den ≠ 1)

@[simp] theorem jadd_num (a b : ℚ) : jadd (num a) (num b) = num (a + b) := rfl

@[simp] theorem jneg_num (a : ℚ) : jneg (num a) = num (-a) := rfl

@[simp] theorem jsub_num (a b : ℚ) : jsub (num a) (num b) = num (a - b) := by
  simp [jsub, jadd, sub_eq_add_neg]

@[simp] theorem jmul_num (a b : ℚ) : jmul (num a) (num b) = num (a * b) := rfl

theorem jdiv_num {b : ℚ} (a : ℚ) (h : b ≠ 0) :
    jdiv (num a) (num b) = num (a / b) := by
  simp [jdiv, h]

@[simp] theorem jmax_num (a b : ℚ) : jmax (num a) (num b) = num (max a b) := rfl

@[simp] theorem jmin_num (a b : ℚ) : jmin (num a) (num b) = num (min a b) := rfl

@[simp] theorem jle_num (a b : ℚ) : jle (num a) (num b) = decide (a ≤ b) := rfl

@[simp] theorem jlt_num (a b : ℚ) : jlt (num a) (num b) = decide (a < b) := rfl

@[simp] theorem jround_num (q : ℚ) :
    jround (num q) = num ((⌊q + 1/2⌋ : ℤ) : ℚ) := rfl

@[simp] theorem jeqZero_num (q : ℚ) : jeqZero (num q) = decide (q = 0) := rfl

@[simp] theorem jfrac_num (q : ℚ) : jfrac (num q) = decide (q.den ≠ 1) := rfl

end JSNum

open JSNum

/-- Modelled from the spec: the `clamp` helper imported from `./utils` (a file
of this repository that is not under src/), per the spec's "clamped to track
bounds": `Math.min(Math.max(lowerBound, value), upperBound)`. -/
def clamp (value lowerBound upperBound : JSNum) : JSNum :=
  jmin (jmax lowerBound value) upperBound

@[simp] theorem clamp_num (v lo hi : ℚ) :
    clamp (num v) (num lo) (num hi) = num (min (max lo v) hi) := rfl

theorem clamp_num_bounds {lo hi : ℚ} (v : ℚ) (h : lo ≤ hi) :
    lo ≤ min (max lo v) hi ∧ min (max lo v) hi ≤ hi :=
  ⟨le_min (le_max_left lo v) h, min_le_right _ _⟩

/-- The `HapticModeEnum` of both variants. -/
inductive HapticMode where
  | NONE : HapticMode
  | STEP : HapticMode
  | BOTH : HapticMode
deriving DecidableEq, Repr

/-- The `PanDirectionEnum` of both variants. -/
inductive PanDirection where
  | START : PanDirection
  | LEFT : PanDirection
  | RIGHT : PanDirection
  | END : PanDirection
deriving DecidableEq, Repr

/-- The configuration surface of the component: the props (and prop-derived
constants) the gesture logic reads.  Shared values that the handlers never
write (minimumValue, maximumValue) are recorded here; optional callbacks and
optional shared values are recorded by presence flags, since the source only
branches on their presence.  `snapToInteger` exists only in
src/unnamed/part_000 and `step` only drives behaviour in src/src/slide.tsx;
keeping one record for both variants lets the refinement claims compare them
directly. -/
structure Props where
  minimumValue : JSNum
  maximumValue : JSNum
  thumbWidth : JSNum
  markWidth : JSNum
  step : Option Nat
  disable : Bool
  disableTapEvent : Bool
  disableTrackFollow : Bool
  hapticMode : HapticMode
  snapToInteger : Bool
  hasIsScrubbing : Bool
  hasPanDirectionValue : Bool
  hasOnHapticFeedback : Bool
  hasOnSlidingStart : Bool
  hasOnSlidingComplete : Bool
  hasOnTap : Bool
  hasOnValueChange : Bool
deriving DecidableEq, Repr

/-- The mutable shared values owned by one slider instance. -/
structure SState where
  progress : JSNum
  thumbValue : JSNum
  bubbleOpacity : JSNum
  prevX : JSNum
  width : JSNum
  isTriggedHaptic : Bool
  isScrubbing : Bool
  panDirection : PanDirection
  markLeftArr : List JSNum
  thumbIndex : Nat
deriving DecidableEq, Repr

/-- A callback invocation hopped to the JS thread via runOnJS (in source
order).  `valueChange` is the call `onValueChange?.(seconds)` made inside
`onSlideAcitve`. -/
inductive Event where
  | slidingStart : Event
  | valueChange : JSNum → Event
  | slidingComplete : JSNum → Event
  | haptic : Event
  | tap : Event
deriving DecidableEq, Repr

/-- True when the Event is the haptic-feedback callback. -/
def Event.isHaptic : Event → Bool
  | Event.haptic => true
  | _ => false

/-- Number of haptic-feedback invocations in an event list. -/
def hapticCount (evs : List Event) : Nat := (evs.filter Event.isHaptic).length

/-- JS truthiness of the `step` prop (`undefined` and `0` are falsy). -/
def stepTruthy : Option Nat → Bool
  | Option.none => false
  | some n => decide (n ≠ 0)

/-- Modelled from the spec: the logical values of the marks of the step
partition, per "an optional discrete step count partitioning the bound range
into marks" — mark k of `step` marks over [lo, hi] carries the value
lo + k·(hi − lo)/step.  (No function of the source computes these values;
this definition exists to compare the release behaviour against the spec's
"snaps to the nearest mark".) -/
def stepMarkValues (lo hi : ℚ) (step : Nat) : List ℚ :=
  (List.range (step + 1)).map (fun k => lo + k * (hi - lo) / step)

/-- The edge test of `onActiveSlider`:
`x <= 0 || x >= width.value - thumbWidth`. -/
def atEdge (p : Props) (w x : JSNum) : Bool :=
  jle x (num 0) || jle (jsub w p.thumbWidth) x

namespace Slide

/-- slide.tsx `sliderTotalValue`: `maximumValue.value + minimumValue.value`. -/
def sliderTotalValue (p : Props) : JSNum := jadd p.maximumValue p.minimumValue

/-- slide.tsx `progressToValue`. -/
def progressToValue (p : Props) (st : SState) (value : JSNum) : JSNum :=
  if jeqZero (sliderTotalValue p) then num 0
  else jmul (jdiv value (sliderTotalValue p)) st.width

/-- slide.tsx `shareValueToSeconds`. -/
def shareValueToSeconds (p : Props) (st : SState) : JSNum :=
  let sliderPercent :=
    clamp
      (jadd (jdiv st.thumbValue (jsub st.width p.thumbWidth))
        (jdiv p.minimumValue (sliderTotalValue p)))
      (num 0) (num 1)
  clamp (jmul sliderPercent (sliderTotalValue p)) p.minimumValue p.maximumValue

/-- slide.tsx `xToProgress`: with a truthy `step` and enough computed marks it
returns the mark screen position at `thumbIndex` (an out-of-range JS index
would read `undefined`, modelled as NaN); otherwise the linear transform. -/
def xToProgress (p : Props) (st : SState) (x : JSNum) : JSNum :=
  match p.step with
  | some n =>
    if n ≠ 0 ∧ n ≤ st.markLeftArr.length then st.markLeftArr.getD st.thumbIndex JSNum.nan
    else jmul (jdiv x (jsub st.width p.thumbWidth)) (sliderTotalValue p)
  | Option.none => jmul (jdiv x (jsub st.width p.thumbWidth)) (sliderTotalValue p)

/-- slide.tsx `animatedThumbStyle` translateX. -/
def thumbTranslateX (p : Props) (st : SState) : JSNum :=
  if p.disableTrackFollow then
    clamp st.thumbValue (num 0) (jsub st.width p.thumbWidth)
  else
    clamp (jsub (progressToValue p st st.progress) p.thumbWidth)
      (jdiv (jneg p.thumbWidth) (num 2)) (jsub st.width p.thumbWidth)

/-- slide.tsx markLeftArr reaction:
`Math.round(width * (i / step)) - (i / step) * markWidth - Math.round(thumbWidth / 3)`
for i = 0 .. step, and `[]` for a falsy step. -/
def markLeftArrOf (p : Props) (w : JSNum) : List JSNum :=
  match p.step with
  | Option.none => []
  | some n =>
    if n = 0 then []
    else
      (List.range (n + 1)).map (fun (i : Nat) =>
        jsub
          (jsub (jround (jmul w (num ((i : ℚ) / (n : ℚ)))))
            (jmul (num ((i : ℚ) / (n : ℚ))) p.markWidth))
          (jround (jdiv p.thumbWidth (num 3))))

/-- slide.tsx `onActiveSlider`. -/
def onActiveSlider (p : Props) (st : SState) (x : JSNum) : SState × List Event :=
  let st1 := if p.hasIsScrubbing then { st with isScrubbing := true } else st
  let st2 := { st1 with thumbValue := clamp x (num 0) (jsub st1.width p.thumbWidth) }
  let st3 :=
    if p.disableTrackFollow then st2
    else { st2 with progress := xToProgress p st2 x }
  let hres :=
    if atEdge p st3.width x then
      if st3.isTriggedHaptic = false ∧ p.hapticMode = HapticMode.BOTH ∧
          p.hasOnHapticFeedback = true then
        ({ st3 with isTriggedHaptic := true }, [Event.haptic])
      else (st3, ([] : List Event))
    else ({ st3 with isTriggedHaptic := false }, ([] : List Event))
  (hres.1,
    hres.2 ++
      (if p.hasOnValueChange then [Event.valueChange (shareValueToSeconds p hres.1)]
       else []))

/-- slide.tsx release block shared by `onGestureEvent.onEnd` and
`onSingleTapEvent.onEnd`: a fractional progress is replaced by
`Math.round(progress.value)`; `onSlidingComplete` gets the rounded value in
that branch and `shareValueToSeconds()` otherwise. -/
def snapRound (p : Props) (st : SState) : SState × List Event :=
  if jfrac st.progress then
    let roundedValue := jround st.progress
    ({ st with progress := roundedValue },
      if p.hasOnSlidingComplete then [Event.slidingComplete roundedValue] else [])
  else
    (st, if p.hasOnSlidingComplete then [Event.slidingComplete (shareValueToSeconds p st)]
      else [])

/-- slide.tsx `onGestureEvent.onStart`. -/
def gestureOnStart (p : Props) (st : SState) : SState × List Event :=
  if p.disable then (st, [])
  else
    let st1 := if p.hasIsScrubbing then { st with isScrubbing := true } else st
    let st2 :=
      if p.hasPanDirectionValue then
        { st1 with panDirection := PanDirection.START, prevX := num 0 }
      else st1
    (st2, if p.hasOnSlidingStart then [Event.slidingStart] else [])

/-- slide.tsx `onGestureEvent.onUpdate`. -/
def gestureOnUpdate (p : Props) (st : SState) (x : JSNum) : SState × List Event :=
  if p.disable then (st, [])
  else
    let st1 :=
      if p.hasPanDirectionValue then
        { st with
          panDirection :=
            if jlt (num 0) (jsub st.prevX x) then PanDirection.LEFT
            else PanDirection.RIGHT,
          prevX := x }
      else st
    let st2 := { st1 with bubbleOpacity := num 1 }
    onActiveSlider p st2 x

/-- slide.tsx `onGestureEvent.onEnd`. -/
def gestureOnEnd (p : Props) (st : SState) (x : JSNum) : SState × List Event :=
  if p.disable then (st, [])
  else
    let st1 := if p.hasIsScrubbing then { st with isScrubbing := true } else st
    let st2 :=
      if p.hasPanDirectionValue then { st1 with panDirection := PanDirection.END }
      else st1
    let st3 := { st2 with bubbleOpacity := num 0 }
    let st4 :=
      if p.disableTrackFollow then { st3 with progress := xToProgress p st3 x }
      else st3
    snapRound p st4

/-- slide.tsx `onSingleTapEvent.onEnd` (the second parameter is the gesture
handler's success flag). -/
def singleTapOnEnd (p : Props) (st : SState) (x : JSNum) (isFinished : Bool) :
    SState × List Event :=
  let tapEvs : List Event := if p.hasOnTap then [Event.tap] else []
  if p.disable || p.disableTapEvent then (st, tapEvs)
  else
    let r1 := if isFinished then onActiveSlider p st x else (st, [])
    let st1 := if p.hasIsScrubbing then { r1.1 with isScrubbing := true } else r1.1
    let st2 := { st1 with bubbleOpacity := num 0 }
    let r2 := snapRound p st2
    (r2.1, tapEvs ++ r1.2 ++ r2.2)

/-- A sequence of pan-update events, final state only. -/
def runUpdates (p : Props) (st : SState) : List JSNum → SState
  | [] => st
  | x :: xs => runUpdates p (gestureOnUpdate p st x).1 xs

/-- A sequence of pan-update events, final state and all emitted callbacks. -/
def runUpdatesEv (p : Props) (st : SState) : List JSNum → SState × List Event
  | [] => (st, [])
  | x :: xs =>
    let r := gestureOnUpdate p st x
    let rest := runUpdatesEv p r.1 xs
    (rest.1, r.2 ++ rest.2)

end Slide

namespace Part000

/-- part_000 `sliderTotalValue`: `maximumValue.value + minimumValue.value`. -/
def sliderTotalValue (p : Props) : JSNum := jadd p.maximumValue p.minimumValue

/-- part_000 `progressToValue` (multiplies by `width.value - thumbWidth`,
unlike slide.tsx). -/
def progressToValue (p : Props) (st : SState) (value : JSNum) : JSNum :=
  if jeqZero (sliderTotalValue p) then num 0
  else jmul (jdiv value (sliderTotalValue p)) (jsub st.width p.thumbWidth)

/-- part_000 `shareValueToSeconds` (textually identical to slide.tsx). -/
def shareValueToSeconds (p : Props) (st : SState) : JSNum :=
  let sliderPercent :=
    clamp
      (jadd (jdiv st.thumbValue (jsub st.width p.thumbWidth))
        (jdiv p.minimumValue (sliderTotalValue p)))
      (num 0) (num 1)
  clamp (jmul sliderPercent (sliderTotalValue p)) p.minimumValue p.maximumValue

/-- part_000 `xToProgress` (no step branch). -/
def xToProgress (p : Props) (st : SState) (x : JSNum) : JSNum :=
  jmul (jdiv x (jsub st.width p.thumbWidth)) (sliderTotalValue p)

/-- part_000 `animatedThumbStyle` translateX (followed case clamps to
[0, width − thumbWidth], unlike slide.tsx). -/
def thumbTranslateX (p : Props) (st : SState) : JSNum :=
  if p.disableTrackFollow then
    clamp st.thumbValue (num 0) (jsub st.width p.thumbWidth)
  else
    clamp (progressToValue p st st.progress) (num 0) (jsub st.width p.thumbWidth)

/-- part_000 `onActiveSlider` (same logic as slide.tsx, with part_000's
`xToProgress` and `shareValueToSeconds`). -/
def onActiveSlider (p : Props) (st : SState) (x : JSNum) : SState × List Event :=
  let st1 := if p.hasIsScrubbing then { st with isScrubbing := true } else st
  let st2 := { st1 with thumbValue := clamp x (num 0) (jsub st1.width p.thumbWidth) }
  let st3 :=
    if p.disableTrackFollow then st2
    else { st2 with progress := xToProgress p st2 x }
  let hres :=
    if atEdge p st3.width x then
      if st3.isTriggedHaptic = false ∧ p.hapticMode = HapticMode.BOTH ∧
          p.hasOnHapticFeedback = true then
        ({ st3 with isTriggedHaptic := true }, [Event.haptic])
      else (st3, ([] : List Event))
    else ({ st3 with isTriggedHaptic := false }, ([] : List Event))
  (hres.1,
    hres.2 ++
      (if p.hasOnValueChange then [Event.valueChange (shareValueToSeconds p hres.1)]
       else []))

/-- part_000 release block shared by `onGestureEvent.onEnd` and
`onSingleTapEvent.onEnd`: rounding is additionally gated on the
`snapToInteger` prop. -/
def snapRound (p : Props) (st : SState) : SState × List Event :=
  if p.snapToInteger = true ∧ jfrac st.progress = true then
    let roundedValue := jround st.progress
    ({ st with progress := roundedValue },
      if p.hasOnSlidingComplete then [Event.slidingComplete roundedValue] else [])
  else
    (st, if p.hasOnSlidingComplete then [Event.slidingComplete (shareValueToSeconds p st)]
      else [])

/-- part_000 `onGestureEvent.onStart`. -/
def gestureOnStart (p : Props) (st : SState) : SState × List Event :=
  if p.disable then (st, [])
  else
    let st1 := if p.hasIsScrubbing then { st with isScrubbing := true } else st
    let st2 :=
      if p.hasPanDirectionValue then
        { st1 with panDirection := PanDirection.START, prevX := num 0 }
      else st1
    (st2, if p.hasOnSlidingStart then [Event.slidingStart] else [])

/-- part_000 `onGestureEvent.onUpdate`. -/
def gestureOnUpdate (p : Props) (st : SState) (x : JSNum) : SState × List Event :=
  if p.disable then (st, [])
  else
    let st1 :=
      if p.hasPanDirectionValue then
        { st with
          panDirection :=
            if jlt (num 0) (jsub st.prevX x) then PanDirection.LEFT
            else PanDirection.RIGHT,
          prevX := x }
      else st
    let st2 := { st1 with bubbleOpacity := num 1 }
    onActiveSlider p st2 x

/-- part_000 `onGestureEvent.onEnd`. -/
def gestureOnEnd (p : Props) (st : SState) (x : JSNum) : SState × List Event :=
  if p.disable then (st, [])
  else
    let st1 := if p.hasIsScrubbing then { st with isScrubbing := true } else st
    let st2 :=
      if p.hasPanDirectionValue then { st1 with panDirection := PanDirection.END }
      else st1
    let st3 := { st2 with bubbleOpacity := num 0 }
    let st4 :=
      if p.disableTrackFollow then { st3 with progress := xToProgress p st3 x }
      else st3
    snapRound p st4

/-- part_000 `onSingleTapEvent.onEnd`. -/
def singleTapOnEnd (p : Props) (st : SState) (x : JSNum) (isFinished : Bool) :
    SState × List Event :=
  let tapEvs : List Event := if p.hasOnTap then [Event.tap] else []
  if p.disable || p.disableTapEvent then (st, tapEvs)
  else
    let r1 := if isFinished then onActiveSlider p st x else (st, [])
    let st1 := if p.hasIsScrubbing then { r1.1 with isScrubbing := true } else r1.1
    let st2 := { st1 with bubbleOpacity := num 0 }
    let r2 := snapRound p st2
    (r2.1, tapEvs ++ r1.2 ++ r2.2)

/-- A sequence of part_000 pan-update events, final state only. -/
def runUpdates (p : Props) (st : SState) : List JSNum → SState
  | [] => st
  | x :: xs => runUpdates p (gestureOnUpdate p st x).1 xs

/-- A sequence of part_000 pan-update events, final state and all emitted
callbacks. -/
def runUpdatesEv (p : Props) (st : SState) : List JSNum → SState × List Event
  | [] => (st, [])
  | x :: xs =>
    let r := gestureOnUpdate p st x
    let rest := runUpdatesEv p r.1 xs
    (rest.1, r.2 ++ rest.2)

end Part000

theorem Slide.xToProgress_fields (p : Props) (s s' : SState) (x : JSNum)
    (h1 : s.markLeftArr = s'.markLeftArr) (h2 : s.thumbIndex = s'.thumbIndex)
    (h3 : s.width = s'.width) :
    Slide.xToProgress p s x = Slide.xToProgress p s' x := by
  cases hs : p.step <;> simp [Slide.xToProgress, hs, h1, h2, h3]

theorem Part000.xToProgress_fields_p0 (p : Props) (s s' : SState) (x : JSNum)
    (h3 : s.width = s'.width) :
    Part000.xToProgress p s x = Part000.xToProgress p s' x := by
  simp [Part000.xToProgress, h3]

theorem Slide.shareValueToSeconds_fields (p : Props) (s s' : SState)
    (h1 : s.thumbValue = s'.thumbValue) (h2 : s.width = s'.width) :
    Slide.shareValueToSeconds p s = Slide.shareValueToSeconds p s' := by
  simp [Slide.shareValueToSeconds, h1, h2]

theorem Part000.shareValueToSeconds_fields_p0 (p : Props) (s s' : SState)
    (h1 : s.thumbValue = s'.thumbValue) (h2 : s.width = s'.width) :
    Part000.shareValueToSeconds p s = Part000.shareValueToSeconds p s' := by
  simp [Part000.shareValueToSeconds, h1, h2]

theorem Slide.onActiveSlider_width (p : Props) (st : SState) (x : JSNum) :
    (Slide.onActiveSlider p st x).1.width = st.width := by
  unfold Slide.onActiveSlider
  dsimp only
  repeat' split
  all_goals rfl

theorem Slide.onActiveSlider_thumbValue (p : Props) (st : SState) (x : JSNum) :
    (Slide.onActiveSlider p st x).1.thumbValue =
      clamp x (num 0) (jsub st.width p.thumbWidth) := by
  unfold Slide.onActiveSlider
  dsimp only
  repeat' split
  all_goals rfl

theorem Slide.onActiveSlider_progress_follow (p : Props) (st : SState) (x : JSNum)
    (h : p.disableTrackFollow = false) :
    (Slide.onActiveSlider p st x).1.progress = Slide.xToProgress p st x := by
  unfold Slide.onActiveSlider
  dsimp only
  simp only [h, Bool.false_eq_true, if_false]
  repeat' split
  all_goals exact Slide.xToProgress_fields p _ st x rfl rfl rfl

theorem Slide.onActiveSlider_progress_noFollow (p : Props) (st : SState) (x : JSNum)
    (h : p.disableTrackFollow = true) :
    (Slide.onActiveSlider p st x).1.progress = st.progress := by
  unfold Slide.onActiveSlider
  dsimp only
  simp only [h, if_true]
  repeat' split
  all_goals rfl

theorem Part000.onActiveSlider_width_p0 (p : Props) (st : SState) (x : JSNum) :
    (Part000.onActiveSlider p st x).1.width = st.width := by
  unfold Part000.onActiveSlider
  dsimp only
  repeat' split
  all_goals rfl

theorem Part000.onActiveSlider_thumbValue_p0 (p : Props) (st : SState) (x : JSNum) :
    (Part000.onActiveSlider p st x).1.thumbValue =
      clamp x (num 0) (jsub st.width p.thumbWidth) := by
  unfold Part000.onActiveSlider
  dsimp only
  repeat' split
  all_goals rfl

theorem Part000.onActiveSlider_progress_follow_p0 (p : Props) (st : SState) (x : JSNum)
    (h : p.disableTrackFollow = false) :
    (Part000.onActiveSlider p st x).1.progress = Part000.xToProgress p st x := by
  unfold Part000.onActiveSlider
  dsimp only
  simp only [h, Bool.false_eq_true, if_false]
  repeat' split
  all_goals exact Part000.xToProgress_fields_p0 p _ st x rfl

theorem Part000.onActiveSlider_progress_noFollow_p0 (p : Props) (st : SState) (x : JSNum)
    (h : p.disableTrackFollow = true) :
    (Part000.onActiveSlider p st x).1.progress = st.progress := by
  unfold Part000.onActiveSlider
  dsimp only
  simp only [h, if_true]
  repeat' split
  all_goals rfl

theorem Slide.gestureOnUpdate_width (p : Props) (st : SState) (x : JSNum) :
    (Slide.gestureOnUpdate p st x).1.width = st.width := by
  unfold Slide.gestureOnUpdate
  dsimp only
  split
  · rfl
  · split <;> rw [Slide.onActiveSlider_width]

theorem Slide.gestureOnUpdate_thumbValue (p : Props) (st : SState) (x : JSNum)
    (hd : p.disable = false) :
    (Slide.gestureOnUpdate p st x).1.thumbValue =
      clamp x (num 0) (jsub st.width p.thumbWidth) := by
  unfold Slide.gestureOnUpdate
  dsimp only
  simp only [hd, Bool.false_eq_true, if_false]
  split <;> rw [Slide.onActiveSlider_thumbValue]

theorem Slide.gestureOnUpdate_progress_noFollow (p : Props) (st : SState) (x : JSNum)
    (h : p.disableTrackFollow = true) :
    (Slide.gestureOnUpdate p st x).1.progress = st.progress := by
  unfold Slide.gestureOnUpdate
  dsimp only
  split
  · rfl
  · split <;> rw [Slide.onActiveSlider_progress_noFollow _ _ _ h]

theorem Part000.gestureOnUpdate_width_p0 (p : Props) (st : SState) (x : JSNum) :
    (Part000.gestureOnUpdate p st x).1.width = st.width := by
  unfold Part000.gestureOnUpdate
  dsimp only
  split
  · rfl
  · split <;> rw [Part000.onActiveSlider_width_p0]

theorem Part000.gestureOnUpdate_thumbValue_p0 (p : Props) (st : SState) (x : JSNum)
    (hd : p.disable = false) :
    (Part000.gestureOnUpdate p st x).1.thumbValue =
      clamp x (num 0) (jsub st.width p.thumbWidth) := by
  unfold Part000.gestureOnUpdate
  dsimp only
  simp only [hd, Bool.false_eq_true, if_false]
  split <;> rw [Part000.onActiveSlider_thumbValue_p0]

theorem Part000.gestureOnUpdate_progress_noFollow_p0 (p : Props) (st : SState) (x : JSNum)
    (h : p.disableTrackFollow = true) :
    (Part000.gestureOnUpdate p st x).1.progress = st.progress := by
  unfold Part000.gestureOnUpdate
  dsimp only
  split
  · rfl
  · split <;> rw [Part000.onActiveSlider_progress_noFollow_p0 _ _ _ h]

theorem Slide.onActiveSlider_valueChange (p : Props) (st : SState) (x : JSNum) :
    ∀ v, Event.valueChange v ∈ (Slide.onActiveSlider p st x).2 →
      v = Slide.shareValueToSeconds p (Slide.onActiveSlider p st x).1 := by
  unfold Slide.onActiveSlider
  dsimp only
  repeat' split
  all_goals intro v hv
  all_goals simp_all

theorem Part000.onActiveSlider_valueChange_p0 (p : Props) (st : SState) (x : JSNum) :
    ∀ v, Event.valueChange v ∈ (Part000.onActiveSlider p st x).2 →
      v = Part000.shareValueToSeconds p (Part000.onActiveSlider p st x).1 := by
  unfold Part000.onActiveSlider
  dsimp only
  repeat' split
  all_goals intro v hv
  all_goals simp_all

theorem Slide.gestureOnUpdate_valueChange (p : Props) (st : SState) (x : JSNum) :
    ∀ v, Event.valueChange v ∈ (Slide.gestureOnUpdate p st x).2 →
      v = Slide.shareValueToSeconds p (Slide.gestureOnUpdate p st x).1 := by
  unfold Slide.gestureOnUpdate
  dsimp only
  split
  · intro v hv
    simp at hv
  · split <;> exact Slide.onActiveSlider_valueChange p _ x

theorem Part000.gestureOnUpdate_valueChange_p0 (p : Props) (st : SState) (x : JSNum) :
    ∀ v, Event.valueChange v ∈ (Part000.gestureOnUpdate p st x).2 →
      v = Part000.shareValueToSeconds p (Part000.gestureOnUpdate p st x).1 := by
  unfold Part000.gestureOnUpdate
  dsimp only
  split
  · intro v hv
    simp at hv
  · split <;> exact Part000.onActiveSlider_valueChange_p0 p _ x

theorem Part000.shareValueToSeconds_eq_slide (p : Props) (st : SState) :
    Part000.shareValueToSeconds p st = Slide.shareValueToSeconds p st := rfl

theorem Slide.shareValueToSeconds_bounds (p : Props) (st : SState)
    {n m w t tv : ℚ}
    (hmin : p.minimumValue = num n) (hmax : p.maximumValue = num m)
    (ht : p.thumbWidth = num t) (hw : st.width = num w) (htv : st.thumbValue = num tv)
    (hnm : n ≤ m) (hwt : w ≠ t) (hne : ¬(n = 0 ∧ m = 0)) :
    jle (num n) (Slide.shareValueToSeconds p st) = true ∧
    jle (Slide.shareValueToSeconds p st) (num m) = true := by
  have hwt' : w - t ≠ 0 := sub_ne_zero.mpr hwt
  unfold Slide.shareValueToSeconds Slide.sliderTotalValue
  rw [hmin, hmax, ht, hw, htv, jadd_num]
  by_cases hT : m + n = 0
  · have hn0 : n ≠ 0 := by
      intro h0
      exact hne ⟨h0, by linarith⟩
    have hnneg : n < 0 := by
      rcases lt_trichotomy n 0 with h | h | h
      · exact h
      · exact absurd h hn0
      · exfalso; linarith
    have e1 : jdiv (num n) (num 0) = JSNum.inf false := by
      simp [jdiv, hn0, not_lt.mpr hnneg.le]
    rw [hT, jsub_num, jdiv_num tv hwt', e1]
    dsimp only
    have e2 : jadd (num (tv / (w - t))) (JSNum.inf false) = JSNum.inf false := rfl
    rw [e2]
    have e3 : clamp (JSNum.inf false) (num 0) (num 1) = num 0 := by
      simp [clamp, jmax, jmin]
    rw [e3, jmul_num, zero_mul, clamp_num]
    simp only [jle_num, decide_eq_true_eq]
    constructor
    · exact le_min (le_max_left n 0) hnm
    · exact min_le_right _ _
  · rw [jsub_num, jdiv_num tv hwt', jdiv_num n hT, jadd_num]
    dsimp only
    rw [clamp_num, jmul_num, clamp_num]
    simp only [jle_num, decide_eq_true_eq]
    exact clamp_num_bounds _ hnm

/-- A baseline concrete configuration for closed instantiations: bounds
[0, 100], the default thumbWidth 15 and markWidth 4, no optional features
except an onValueChange callback. -/
def exProps : Props :=
  { minimumValue := num 0, maximumValue := num 100, thumbWidth := num 15,
    markWidth := num 4, step := Option.none, disable := false,
    disableTapEvent := false, disableTrackFollow := false,
    hapticMode := HapticMode.NONE, snapToInteger := false,
    hasIsScrubbing := false, hasPanDirectionValue := false,
    hasOnHapticFeedback := false, hasOnSlidingStart := false,
    hasOnSlidingComplete := false, hasOnTap := false, hasOnValueChange := true }

/-- A baseline concrete state: a 100-wide track at rest. -/
def exState : SState :=
  { progress := num 0, thumbValue := num 0, bubbleOpacity := num 0,
    prevX := num 0, width := num 100, isTriggedHaptic := false,
    isScrubbing := false, panDirection := PanDirection.START,
    markLeftArr := [], thumbIndex := 0 }

/-- The baseline configuration with the slider disabled and an onTap callback
supplied. -/
def exPropsDisabled : Props := { exProps with disable := true, hasOnTap := true }

/-- C8: the two Slider variants agree on the shared gesture-to-value logic —
with the step prop unset, xToProgress and shareValueToSeconds of
src/src/slide.tsx equal the same-named functions of src/unnamed/part_000 for
every position, track width, thumb width and bounds. -/
theorem c8_variants_agree (p : Props) (st : SState) (x : JSNum)
    (hstep : p.step = Option.none) :
    Slide.xToProgress p st x = Part000.xToProgress p st x ∧
    Slide.shareValueToSeconds p st = Part000.shareValueToSeconds p st := by
  refine ⟨?_, rfl⟩
  simp [Slide.xToProgress, Part000.xToProgress, Slide.sliderTotalValue,
    Part000.sliderTotalValue, hstep]

/-- Witness for C8 at the baseline configuration and x = 30. -/
theorem c8_variants_agree_witness :
    exProps.step = Option.none ∧
    (Slide.xToProgress exProps exState (num 30) =
        Part000.xToProgress exProps exState (num 30) ∧
      Slide.shareValueToSeconds exProps exState =
        Part000.shareValueToSeconds exProps exState) :=
  ⟨rfl, c8_variants_agree exProps exState (num 30) rfl⟩

/-- C9: with the disable prop set, every pan event (start, update, end) and
every tap leaves the whole state unchanged (in particular progress,
thumbValue and bubbleOpacity) and emits no callback — except that a tap
still invokes onTap — in both variants. -/
theorem c9_disable_inert (p : Props) (st : SState) (x : JSNum) (isFinished : Bool)
    (h : p.disable = true) :
    Slide.gestureOnStart p st = (st, []) ∧
    Slide.gestureOnUpdate p st x = (st, []) ∧
    Slide.gestureOnEnd p st x = (st, []) ∧
    Slide.singleTapOnEnd p st x isFinished =
      (st, if p.hasOnTap then [Event.tap] else []) ∧
    Part000.gestureOnStart p st = (st, []) ∧
    Part000.gestureOnUpdate p st x = (st, []) ∧
    Part000.gestureOnEnd p st x = (st, []) ∧
    Part000.singleTapOnEnd p st x isFinished =
      (st, if p.hasOnTap then [Event.tap] else []) := by
  simp [Slide.gestureOnStart, Slide.gestureOnUpdate, Slide.gestureOnEnd,
    Slide.singleTapOnEnd, Part000.gestureOnStart, Part000.gestureOnUpdate,
    Part000.gestureOnEnd, Part000.singleTapOnEnd, h]

/-- Witness for C9 at the disabled baseline configuration, x = 50, a finished
tap. -/
theorem c9_disable_inert_witness :
    exPropsDisabled.disable = true ∧
    (Slide.gestureOnStart exPropsDisabled exState = (exState, []) ∧
      Slide.gestureOnUpdate exPropsDisabled exState (num 50) = (exState, []) ∧
      Slide.gestureOnEnd exPropsDisabled exState (num 50) = (exState, []) ∧
      Slide.singleTapOnEnd exPropsDisabled exState (num 50) true =
        (exState, if exPropsDisabled.hasOnTap then [Event.tap] else []) ∧
      Part000.gestureOnStart exPropsDisabled exState = (exState, []) ∧
      Part000.gestureOnUpdate exPropsDisabled exState (num 50) = (exState, []) ∧
      Part000.gestureOnEnd exPropsDisabled exState (num 50) = (exState, []) ∧
      Part000.singleTapOnEnd exPropsDisabled exState (num 50) true =
        (exState, if exPropsDisabled.hasOnTap then [Event.tap] else [])) :=
  ⟨rfl, c9_disable_inert exPropsDisabled exState (num 50) true rfl⟩

theorem Slide.xToProgress_update (p : Props) (st : SState) (x : JSNum)
    (pr tv bo pv : JSNum) (th sc : Bool) (pd : PanDirection) :
    Slide.xToProgress p
      { progress := pr, thumbValue := tv, bubbleOpacity := bo, prevX := pv,
        width := st.width, isTriggedHaptic := th, isScrubbing := sc,
        panDirection := pd, markLeftArr := st.markLeftArr,
        thumbIndex := st.thumbIndex } x = Slide.xToProgress p st x :=
  Slide.xToProgress_fields p _ st x rfl rfl rfl

theorem Part000.xToProgress_update_p0 (p : Props) (st : SState) (x : JSNum)
    (pr tv bo pv : JSNum) (th sc : Bool) (pd : PanDirection)
    (ml : List JSNum) (ti : Nat) :
    Part000.xToProgress p
      { progress := pr, thumbValue := tv, bubbleOpacity := bo, prevX := pv,
        width := st.width, isTriggedHaptic := th, isScrubbing := sc,
        panDirection := pd, markLeftArr := ml, thumbIndex := ti } x =
      Part000.xToProgress p st x :=
  Part000.xToProgress_fields_p0 p _ st x rfl

theorem Slide.snapRound_progress (p : Props) (st : SState) :
    (Slide.snapRound p st).1.progress =
      (if jfrac st.progress then jround st.progress else st.progress) := by
  unfold Slide.snapRound
  dsimp only
  split <;> rfl

theorem Part000.snapRound_progress_p0 (p : Props) (st : SState) :
    (Part000.snapRound p st).1.progress =
      (if p.snapToInteger = true ∧ jfrac st.progress = true then jround st.progress
       else st.progress) := by
  unfold Part000.snapRound
  dsimp only
  split <;> rfl

theorem Slide.gestureOnEnd_progress (p : Props) (st : SState) (x : JSNum)
    (hd : p.disable = false) :
    (Slide.gestureOnEnd p st x).1.progress =
      (if jfrac (if p.disableTrackFollow then Slide.xToProgress p st x else st.progress)
        then jround (if p.disableTrackFollow then Slide.xToProgress p st x else st.progress)
        else (if p.disableTrackFollow then Slide.xToProgress p st x else st.progress)) := by
  unfold Slide.gestureOnEnd
  dsimp only
  simp only [hd, Bool.false_eq_true, if_false]
  repeat' split
  all_goals rw [Slide.snapRound_progress]
  all_goals dsimp only
  all_goals try rw [Slide.xToProgress_update]
  all_goals simp_all

theorem Part000.gestureOnEnd_progress_p0 (p : Props) (st : SState) (x : JSNum)
    (hd : p.disable = false) :
    (Part000.gestureOnEnd p st x).1.progress =
      (if p.snapToInteger = true ∧
          jfrac (if p.disableTrackFollow then Part000.xToProgress p st x else st.progress) = true
        then jround (if p.disableTrackFollow then Part000.xToProgress p st x else st.progress)
        else (if p.disableTrackFollow then Part000.xToProgress p st x else st.progress)) := by
  unfold Part000.gestureOnEnd
  dsimp only
  simp only [hd, Bool.false_eq_true, if_false]
  repeat' split
  all_goals rw [Part000.snapRound_progress_p0]
  all_goals dsimp only
  all_goals try rw [Part000.xToProgress_update_p0]
  all_goals simp_all

theorem Slide.runUpdates_progress_noFollow (p : Props)
    (h : p.disableTrackFollow = true) :
    ∀ (xs : List JSNum) (st : SState),
      (Slide.runUpdates p st xs).progress = st.progress := by
  intro xs
  induction xs with
  | nil => intro st; rfl
  | cons x xs ih =>
    intro st
    show (Slide.runUpdates p (Slide.gestureOnUpdate p st x).1 xs).progress = st.progress
    rw [ih, Slide.gestureOnUpdate_progress_noFollow p st x h]

theorem Part000.runUpdates_progress_noFollow_p0 (p : Props)
    (h : p.disableTrackFollow = true) :
    ∀ (xs : List JSNum) (st : SState),
      (Part000.runUpdates p st xs).progress = st.progress := by
  intro xs
  induction xs with
  | nil => intro st; rfl
  | cons x xs ih =>
    intro st
    show (Part000.runUpdates p (Part000.gestureOnUpdate p st x).1 xs).progress = st.progress
    rw [ih, Part000.gestureOnUpdate_progress_noFollow_p0 p st x h]

/-- The baseline configuration with disableTrackFollow set. -/
def exPropsNoFollow : Props := { exProps with disableTrackFollow := true }

/-- C10: with disableTrackFollow set, drag updates write the clamped gesture
position into thumbValue and never change progress (over any sequence of
updates); progress is assigned from the gesture position only at pan end,
where it becomes xToProgress(x) — integer-rounded by the release block when
fractional (in part_000 only when snapToInteger is also set). -/
theorem c10_track_follow_disabled (p : Props) (st : SState) (xs : List JSNum)
    (x y : JSNum) (hdtf : p.disableTrackFollow = true) (hd : p.disable = false) :
    (Slide.runUpdates p st xs).progress = st.progress ∧
    (Slide.gestureOnUpdate p st y).1.thumbValue =
      clamp y (num 0) (jsub st.width p.thumbWidth) ∧
    (Slide.gestureOnEnd p st x).1.progress =
      (if jfrac (Slide.xToProgress p st x) then jround (Slide.xToProgress p st x)
       else Slide.xToProgress p st x) ∧
    (Part000.runUpdates p st xs).progress = st.progress ∧
    (Part000.gestureOnUpdate p st y).1.thumbValue =
      clamp y (num 0) (jsub st.width p.thumbWidth) ∧
    (Part000.gestureOnEnd p st x).1.progress =
      (if p.snapToInteger = true ∧ jfrac (Part000.xToProgress p st x) = true
       then jround (Part000.xToProgress p st x) else Part000.xToProgress p st x) := by
  refine ⟨Slide.runUpdates_progress_noFollow p hdtf xs st,
    Slide.gestureOnUpdate_thumbValue p st y hd, ?_,
    Part000.runUpdates_progress_noFollow_p0 p hdtf xs st,
    Part000.gestureOnUpdate_thumbValue_p0 p st y hd, ?_⟩
  · rw [Slide.gestureOnEnd_progress p st x hd]
    simp [hdtf]
  · rw [Part000.gestureOnEnd_progress_p0 p st x hd]
    simp [hdtf]

/-- Witness for C10 at the baseline no-follow configuration, updates at 20
and 40, end at 60. -/
theorem c10_track_follow_disabled_witness :
    exPropsNoFollow.disableTrackFollow = true ∧
    ((Slide.runUpdates exPropsNoFollow exState [num 20, num 40]).progress =
        exState.progress ∧
      (Slide.gestureOnUpdate exPropsNoFollow exState (num 30)).1.thumbValue =
        clamp (num 30) (num 0) (jsub exState.width exPropsNoFollow.thumbWidth) ∧
      (Slide.gestureOnEnd exPropsNoFollow exState (num 60)).1.progress =
        (if jfrac (Slide.xToProgress exPropsNoFollow exState (num 60))
          then jround (Slide.xToProgress exPropsNoFollow exState (num 60))
          else Slide.xToProgress exPropsNoFollow exState (num 60)) ∧
      (Part000.runUpdates exPropsNoFollow exState [num 20, num 40]).progress =
        exState.progress ∧
      (Part000.gestureOnUpdate exPropsNoFollow exState (num 30)).1.thumbValue =
        clamp (num 30) (num 0) (jsub exState.width exPropsNoFollow.thumbWidth) ∧
      (Part000.gestureOnEnd exPropsNoFollow exState (num 60)).1.progress =
        (if exPropsNoFollow.snapToInteger = true ∧
            jfrac (Part000.xToProgress exPropsNoFollow exState (num 60)) = true
          then jround (Part000.xToProgress exPropsNoFollow exState (num 60))
          else Part000.xToProgress exPropsNoFollow exState (num 60))) :=
  ⟨rfl, c10_track_follow_disabled exPropsNoFollow exState [num 20, num 40]
    (num 60) (num 30) rfl rfl⟩

@[simp] theorem hapticCount_nil : hapticCount [] = 0 := rfl

theorem hapticCount_append (a b : List Event) :
    hapticCount (a ++ b) = hapticCount a + hapticCount b := by
  simp [hapticCount, List.filter_append]

@[simp] theorem hapticCount_haptic : hapticCount [Event.haptic] = 1 := rfl

@[simp] theorem hapticCount_cons_haptic (l : List Event) :
    hapticCount (Event.haptic :: l) = 1 + hapticCount l := by
  simp [hapticCount, List.filter_cons, Event.isHaptic, Nat.add_comm]

@[simp] theorem hapticCount_cons_valueChange (v : JSNum) (l : List Event) :
    hapticCount (Event.valueChange v :: l) = hapticCount l := by
  simp [hapticCount, List.filter_cons, Event.isHaptic]

@[simp] theorem hapticCount_valueChange (v : JSNum) :
    hapticCount [Event.valueChange v] = 0 := rfl

theorem Slide.onActiveSlider_haptic_edge (p : Props) (st : SState) (x : JSNum)
    (hm : p.hapticMode = HapticMode.BOTH) (hh : p.hasOnHapticFeedback = true)
    (hEdge : atEdge p st.width x = true) :
    (Slide.onActiveSlider p st x).1.isTriggedHaptic = true ∧
    hapticCount (Slide.onActiveSlider p st x).2 =
      (if st.isTriggedHaptic then 0 else 1) := by
  unfold Slide.onActiveSlider
  dsimp only
  repeat' split
  all_goals simp_all [hapticCount_append]

theorem Slide.onActiveSlider_haptic_offEdge (p : Props) (st : SState) (x : JSNum)
    (hEdge : atEdge p st.width x = false) :
    (Slide.onActiveSlider p st x).1.isTriggedHaptic = false ∧
    hapticCount (Slide.onActiveSlider p st x).2 = 0 := by
  unfold Slide.onActiveSlider
  dsimp only
  repeat' split
  all_goals simp_all [hapticCount_append]

theorem Part000.onActiveSlider_haptic_edge_p0 (p : Props) (st : SState) (x : JSNum)
    (hm : p.hapticMode = HapticMode.BOTH) (hh : p.hasOnHapticFeedback = true)
    (hEdge : atEdge p st.width x = true) :
    (Part000.onActiveSlider p st x).1.isTriggedHaptic = true ∧
    hapticCount (Part000.onActiveSlider p st x).2 =
      (if st.isTriggedHaptic then 0 else 1) := by
  unfold Part000.onActiveSlider
  dsimp only
  repeat' split
  all_goals simp_all [hapticCount_append]

theorem Part000.onActiveSlider_haptic_offEdge_p0 (p : Props) (st : SState) (x : JSNum)
    (hEdge : atEdge p st.width x = false) :
    (Part000.onActiveSlider p st x).1.isTriggedHaptic = false ∧
    hapticCount (Part000.onActiveSlider p st x).2 = 0 := by
  unfold Part000.onActiveSlider
  dsimp only
  repeat' split
  all_goals simp_all [hapticCount_append]

theorem Slide.gestureOnUpdate_haptic_edge (p : Props) (st : SState) (x : JSNum)
    (hm : p.hapticMode = HapticMode.BOTH) (hh : p.hasOnHapticFeedback = true)
    (hd : p.disable = false) (hEdge : atEdge p st.width x = true) :
    (Slide.gestureOnUpdate p st x).1.isTriggedHaptic = true ∧
    hapticCount (Slide.gestureOnUpdate p st x).2 =
      (if st.isTriggedHaptic then 0 else 1) := by
  unfold Slide.gestureOnUpdate
  dsimp only
  simp only [hd, Bool.false_eq_true, if_false]
  split <;> exact Slide.onActiveSlider_haptic_edge p _ x hm hh hEdge

theorem Slide.gestureOnUpdate_haptic_offEdge (p : Props) (st : SState) (x : JSNum)
    (hd : p.disable = false) (hEdge : atEdge p st.width x = false) :
    (Slide.gestureOnUpdate p st x).1.isTriggedHaptic = false ∧
    hapticCount (Slide.gestureOnUpdate p st x).2 = 0 := by
  unfold Slide.gestureOnUpdate
  dsimp only
  simp only [hd, Bool.false_eq_true, if_false]
  split <;> exact Slide.onActiveSlider_haptic_offEdge p _ x hEdge

theorem Part000.gestureOnUpdate_haptic_edge_p0 (p : Props) (st : SState) (x : JSNum)
    (hm : p.hapticMode = HapticMode.BOTH) (hh : p.hasOnHapticFeedback = true)
    (hd : p.disable = false) (hEdge : atEdge p st.width x = true) :
    (Part000.gestureOnUpdate p st x).1.isTriggedHaptic = true ∧
    hapticCount (Part000.gestureOnUpdate p st x).2 =
      (if st.isTriggedHaptic then 0 else 1) := by
  unfold Part000.gestureOnUpdate
  dsimp only
  simp only [hd, Bool.false_eq_true, if_false]
  split <;> exact Part000.onActiveSlider_haptic_edge_p0 p _ x hm hh hEdge

theorem Part000.gestureOnUpdate_haptic_offEdge_p0 (p : Props) (st : SState) (x : JSNum)
    (hd : p.disable = false) (hEdge : atEdge p st.width x = false) :
    (Part000.gestureOnUpdate p st x).1.isTriggedHaptic = false ∧
    hapticCount (Part000.gestureOnUpdate p st x).2 = 0 := by
  unfold Part000.gestureOnUpdate
  dsimp only
  simp only [hd, Bool.false_eq_true, if_false]
  split <;> exact Part000.onActiveSlider_haptic_offEdge_p0 p _ x hEdge

theorem Slide.runUpdatesEv_haptics_armed (p : Props)
    (hm : p.hapticMode = HapticMode.BOTH) (hh : p.hasOnHapticFeedback = true)
    (hd : p.disable = false) :
    ∀ (xs : List JSNum) (st : SState), st.isTriggedHaptic = true →
      (∀ y ∈ xs, atEdge p st.width y = true) →
      hapticCount (Slide.runUpdatesEv p st xs).2 = 0 ∧
      (Slide.runUpdatesEv p st xs).1.isTriggedHaptic = true := by
  intro xs
  induction xs with
  | nil => intro st hflag _; exact ⟨rfl, hflag⟩
  | cons x xs ih =>
    intro st hflag hEdge
    have hex : atEdge p st.width x = true := hEdge x (List.mem_cons_self x xs)
    have h1 := Slide.gestureOnUpdate_haptic_edge p st x hm hh hd hex
    have hEdges : ∀ y ∈ xs, atEdge p (Slide.gestureOnUpdate p st x).1.width y = true := by
      intro y hy
      rw [Slide.gestureOnUpdate_width]
      exact hEdge y (List.mem_cons_of_mem x hy)
    have hrest := ih (Slide.gestureOnUpdate p st x).1 h1.1 hEdges
    constructor
    · show hapticCount
        ((Slide.gestureOnUpdate p st x).2 ++
          (Slide.runUpdatesEv p (Slide.gestureOnUpdate p st x).1 xs).2) = 0
      rw [hapticCount_append, hrest.1, h1.2]
      simp [hflag]
    · show (Slide.runUpdatesEv p (Slide.gestureOnUpdate p st x).1 xs).1.isTriggedHaptic = true
      exact hrest.2

theorem Slide.runUpdatesEv_haptics_le_one (p : Props)
    (hm : p.hapticMode = HapticMode.BOTH) (hh : p.hasOnHapticFeedback = true)
    (hd : p.disable = false) :
    ∀ (xs : List JSNum) (st : SState),
      (∀ y ∈ xs, atEdge p st.width y = true) →
      hapticCount (Slide.runUpdatesEv p st xs).2 ≤ 1 := by
  intro xs st hEdge
  cases hflag : st.isTriggedHaptic
  case true =>
    rw [(Slide.runUpdatesEv_haptics_armed p hm hh hd xs st hflag hEdge).1]
    exact Nat.zero_le 1
  case false =>
    cases xs with
    | nil => exact Nat.zero_le 1
    | cons x xs =>
      have hex : atEdge p st.width x = true := hEdge x (List.mem_cons_self x xs)
      have h1 := Slide.gestureOnUpdate_haptic_edge p st x hm hh hd hex
      have hEdges : ∀ y ∈ xs, atEdge p (Slide.gestureOnUpdate p st x).1.width y = true := by
        intro y hy
        rw [Slide.gestureOnUpdate_width]
        exact hEdge y (List.mem_cons_of_mem x hy)
      have hrest := Slide.runUpdatesEv_haptics_armed p hm hh hd xs
        (Slide.gestureOnUpdate p st x).1 h1.1 hEdges
      show hapticCount
        ((Slide.gestureOnUpdate p st x).2 ++
          (Slide.runUpdatesEv p (Slide.gestureOnUpdate p st x).1 xs).2) ≤ 1
      rw [hapticCount_append, hrest.1, h1.2]
      simp [hflag]

theorem Part000.runUpdatesEv_haptics_armed_p0 (p : Props)
    (hm : p.hapticMode = HapticMode.BOTH) (hh : p.hasOnHapticFeedback = true)
    (hd : p.disable = false) :
    ∀ (xs : List JSNum) (st : SState), st.isTriggedHaptic = true →
      (∀ y ∈ xs, atEdge p st.width y = true) →
      hapticCount (Part000.runUpdatesEv p st xs).2 = 0 ∧
      (Part000.runUpdatesEv p st xs).1.isTriggedHaptic = true := by
  intro xs
  induction xs with
  | nil => intro st hflag _; exact ⟨rfl, hflag⟩
  | cons x xs ih =>
    intro st hflag hEdge
    have hex : atEdge p st.width x = true := hEdge x (List.mem_cons_self x xs)
    have h1 := Part000.gestureOnUpdate_haptic_edge_p0 p st x hm hh hd hex
    have hEdges : ∀ y ∈ xs, atEdge p (Part000.gestureOnUpdate p st x).1.width y = true := by
      intro y hy
      rw [Part000.gestureOnUpdate_width_p0]
      exact hEdge y (List.mem_cons_of_mem x hy)
    have hrest := ih (Part000.gestureOnUpdate p st x).1 h1.1 hEdges
    constructor
    · show hapticCount
        ((Part000.gestureOnUpdate p st x).2 ++
          (Part000.runUpdatesEv p (Part000.gestureOnUpdate p st x).1 xs).2) = 0
      rw [hapticCount_append, hrest.1, h1.2]
      simp [hflag]
    · show (Part000.runUpdatesEv p (Part000.gestureOnUpdate p st x).1 xs).1.isTriggedHaptic = true
      exact hrest.2

theorem Part000.runUpdatesEv_haptics_le_one_p0 (p : Props)
    (hm : p.hapticMode = HapticMode.BOTH) (hh : p.hasOnHapticFeedback = true)
    (hd : p.disable = false) :
    ∀ (xs : List JSNum) (st : SState),
      (∀ y ∈ xs, atEdge p st.width y = true) →
      hapticCount (Part000.runUpdatesEv p st xs).2 ≤ 1 := by
  intro xs st hEdge
  cases hflag : st.isTriggedHaptic
  case true =>
    rw [(Part000.runUpdatesEv_haptics_armed_p0 p hm hh hd xs st hflag hEdge).1]
    exact Nat.zero_le 1
  case false =>
    cases xs with
    | nil => exact Nat.zero_le 1
    | cons x xs =>
      have hex : atEdge p st.width x = true := hEdge x (List.mem_cons_self x xs)
      have h1 := Part000.gestureOnUpdate_haptic_edge_p0 p st x hm hh hd hex
      have hEdges : ∀ y ∈ xs, atEdge p (Part000.gestureOnUpdate p st x).1.width y = true := by
        intro y hy
        rw [Part000.gestureOnUpdate_width_p0]
        exact hEdge y (List.mem_cons_of_mem x hy)
      have hrest := Part000.runUpdatesEv_haptics_armed_p0 p hm hh hd xs
        (Part000.gestureOnUpdate p st x).1 h1.1 hEdges
      show hapticCount
        ((Part000.gestureOnUpdate p st x).2 ++
          (Part000.runUpdatesEv p (Part000.gestureOnUpdate p st x).1 xs).2) ≤ 1
      rw [hapticCount_append, hrest.1, h1.2]
      simp [hflag]

/-- The baseline configuration with hapticMode 'both' and an onHapticFeedback
callback supplied. -/
def exPropsHaptic : Props :=
  { exProps with hapticMode := HapticMode.BOTH, hasOnHapticFeedback := true }

/-- C5: with hapticMode 'both' and an onHapticFeedback callback, the haptic
callback fires at most once per edge-touch, in both variants: over any
sequence of drag updates whose positions all satisfy the edge test
(x <= 0 or x >= width − thumbWidth) at most one haptic event is emitted, and
none at all when the trigger flag is already set; an update off the edge
emits no haptic and clears the flag (re-arming the trigger). -/
theorem c5_haptic_once_per_edge (p : Props) (st : SState) (xs : List JSNum)
    (x : JSNum) (hm : p.hapticMode = HapticMode.BOTH)
    (hh : p.hasOnHapticFeedback = true) (hd : p.disable = false) :
    (xs.all (fun y => atEdge p st.width y) = true →
      hapticCount (Slide.runUpdatesEv p st xs).2 ≤ 1) ∧
    (xs.all (fun y => atEdge p st.width y) = true → st.isTriggedHaptic = true →
      hapticCount (Slide.runUpdatesEv p st xs).2 = 0) ∧
    (atEdge p st.width x = false →
      (Slide.gestureOnUpdate p st x).1.isTriggedHaptic = false ∧
      hapticCount (Slide.gestureOnUpdate p st x).2 = 0) ∧
    (xs.all (fun y => atEdge p st.width y) = true →
      hapticCount (Part000.runUpdatesEv p st xs).2 ≤ 1) ∧
    (xs.all (fun y => atEdge p st.width y) = true → st.isTriggedHaptic = true →
      hapticCount (Part000.runUpdatesEv p st xs).2 = 0) ∧
    (atEdge p st.width x = false →
      (Part000.gestureOnUpdate p st x).1.isTriggedHaptic = false ∧
      hapticCount (Part000.gestureOnUpdate p st x).2 = 0) := by
  refine ⟨fun hall => ?_, fun hall hflag => ?_,
    fun h => Slide.gestureOnUpdate_haptic_offEdge p st x hd h,
    fun hall => ?_, fun hall hflag => ?_,
    fun h => Part000.gestureOnUpdate_haptic_offEdge_p0 p st x hd h⟩
  · exact Slide.runUpdatesEv_haptics_le_one p hm hh hd xs st
      (by simpa [List.all_eq_true] using hall)
  · exact (Slide.runUpdatesEv_haptics_armed p hm hh hd xs st hflag
      (by simpa [List.all_eq_true] using hall)).1
  · exact Part000.runUpdatesEv_haptics_le_one_p0 p hm hh hd xs st
      (by simpa [List.all_eq_true] using hall)
  · exact (Part000.runUpdatesEv_haptics_armed_p0 p hm hh hd xs st hflag
      (by simpa [List.all_eq_true] using hall)).1

/-- Witness for C5: three consecutive edge updates (0, -5, 100 on a 100-wide
track with thumbWidth 15) and an off-edge update at 40. -/
theorem c5_haptic_once_per_edge_witness :
    exPropsHaptic.hapticMode = HapticMode.BOTH ∧
    (([num 0, num (-5), num 100].all
          (fun y => atEdge exPropsHaptic exState.width y) = true →
        hapticCount
          (Slide.runUpdatesEv exPropsHaptic exState [num 0, num (-5), num 100]).2 ≤ 1) ∧
      ([num 0, num (-5), num 100].all
          (fun y => atEdge exPropsHaptic exState.width y) = true →
        exState.isTriggedHaptic = true →
        hapticCount
          (Slide.runUpdatesEv exPropsHaptic exState [num 0, num (-5), num 100]).2 = 0) ∧
      (atEdge exPropsHaptic exState.width (num 40) = false →
        (Slide.gestureOnUpdate exPropsHaptic exState (num 40)).1.isTriggedHaptic = false ∧
        hapticCount (Slide.gestureOnUpdate exPropsHaptic exState (num 40)).2 = 0) ∧
      ([num 0, num (-5), num 100].all
          (fun y => atEdge exPropsHaptic exState.width y) = true →
        hapticCount
          (Part000.runUpdatesEv exPropsHaptic exState [num 0, num (-5), num 100]).2 ≤ 1) ∧
      ([num 0, num (-5), num 100].all
          (fun y => atEdge exPropsHaptic exState.width y) = true →
        exState.isTriggedHaptic = true →
        hapticCount
          (Part000.runUpdatesEv exPropsHaptic exState [num 0, num (-5), num 100]).2 = 0) ∧
      (atEdge exPropsHaptic exState.width (num 40) = false →
        (Part000.gestureOnUpdate exPropsHaptic exState (num 40)).1.isTriggedHaptic = false ∧
        hapticCount (Part000.gestureOnUpdate exPropsHaptic exState (num 40)).2 = 0)) :=
  ⟨rfl, c5_haptic_once_per_edge exPropsHaptic exState [num 0, num (-5), num 100]
    (num 40) rfl rfl rfl⟩

/-- Counterexample to C1 as stated: at the baseline configuration (bounds
[0, 100], track width 100, thumbWidth 15, step unset, track follow on) the
drag position x = 100 lies in [0, track width], yet after onActiveSlider the
progress shared value is (100/85)*100 = 2000/17 > 100 — xToProgress divides
by width − thumbWidth and is never clamped. -/
theorem c1_counterexample :
    (Slide.onActiveSlider exProps exState (num 100)).1.progress = num (2000/17) ∧
    jle ((Slide.onActiveSlider exProps exState (num 100)).1.progress)
      exProps.maximumValue = false := by
  have h : (Slide.onActiveSlider exProps exState (num 100)).1.progress =
      num (2000/17) := by
    rw [Slide.onActiveSlider_progress_follow exProps exState (num 100) rfl]
    unfold Slide.xToProgress Slide.sliderTotalValue
    norm_num [exProps, exState, jdiv, jmul]
  refine ⟨h, ?_⟩
  rw [h]
  norm_num [exProps]

/-- C1 amended: with minimumValue = 0 ≤ maximumValue, track width strictly
greater than thumb width, step unset and disableTrackFollow false, for every
drag-update or tap position x in [0, track width − thumb width] (not the full
[0, track width]) the progress shared value after onActiveSlider stays within
[minimumValue, maximumValue]. -/
theorem c1_amended_progress_bounds (p : Props) (st : SState) (m w t x : ℚ)
    (hmin : p.minimumValue = num 0) (hmax : p.maximumValue = num m)
    (hm : 0 ≤ m) (ht : p.thumbWidth = num t) (hw : st.width = num w)
    (hwt : t < w) (hstep : p.step = Option.none)
    (hdtf : p.disableTrackFollow = false) (hx0 : 0 ≤ x) (hxw : x ≤ w - t) :
    jle (num 0) ((Slide.onActiveSlider p st (num x)).1.progress) = true ∧
    jle ((Slide.onActiveSlider p st (num x)).1.progress) (num m) = true := by
  have hwt' : w - t ≠ 0 := sub_ne_zero.mpr (ne_of_gt (by linarith))
  rw [Slide.onActiveSlider_progress_follow p st (num x) hdtf]
  unfold Slide.xToProgress Slide.sliderTotalValue
  rw [hstep]
  rw [hmax, hmin, hw, ht, jsub_num, jdiv_num x hwt', jadd_num, jmul_num]
  simp only [jle_num, decide_eq_true_eq]
  have hpos : (0:ℚ) < w - t := by linarith
  have hdiv0 : 0 ≤ x / (w - t) := div_nonneg hx0 hpos.le
  have hdiv1 : x / (w - t) ≤ 1 := (div_le_one hpos).mpr hxw
  constructor
  · exact mul_nonneg hdiv0 (by linarith)
  · have := mul_le_mul_of_nonneg_right hdiv1 (show (0:ℚ) ≤ m + 0 by linarith)
    linarith

/-- Witness for C1 amended at the baseline configuration and x = 40. -/
theorem c1_amended_progress_bounds_witness :
    (0:ℚ) ≤ 40 ∧ (40:ℚ) ≤ 100 - 15 ∧
    (jle (num 0) ((Slide.onActiveSlider exProps exState (num 40)).1.progress) = true ∧
      jle ((Slide.onActiveSlider exProps exState (num 40)).1.progress)
        (num 100) = true) :=
  ⟨by norm_num, by norm_num,
    c1_amended_progress_bounds exProps exState 100 100 15 40 rfl rfl (by norm_num)
      rfl rfl (by norm_num) rfl rfl (by norm_num) (by norm_num)⟩

/-- Counterexample to C2 as stated: at the baseline configuration (track
width 100 at least thumbWidth 15, bounds [0, 100], progress 0, track follow
on) slide.tsx's animatedThumbStyle computes
translateX = clamp(0 − 15, −15/2, 85) = −15/2 < 0, outside
[0, track width − thumb width]: the followed case clamps with the negative
lower bound −thumbWidth/2. -/
theorem c2_counterexample :
    Slide.thumbTranslateX exProps exState = num (-15/2) ∧
    jle (num 0) (Slide.thumbTranslateX exProps exState) = false := by
  have h : Slide.thumbTranslateX exProps exState = num (-15/2) := by
    unfold Slide.thumbTranslateX Slide.progressToValue Slide.sliderTotalValue
    norm_num [exProps, exState, jdiv, jmul, jneg, clamp, jmax, jmin]
  refine ⟨h, ?_⟩
  rw [h]
  norm_num

/-- C2 amended: for every numeric progress, thumbValue, bounds, and
0 ≤ thumbWidth ≤ track width, slide.tsx's thumb translateX lies within
[−thumbWidth/2, width − thumbWidth] (only its disableTrackFollow case stays
within [0, width − thumbWidth]), while part_000's translateX lies within
[0, width − thumbWidth] in both cases. -/
theorem c2_amended_thumb_offset (p : Props) (st : SState) (n m w t tv pr : ℚ)
    (hmin : p.minimumValue = num n) (hmax : p.maximumValue = num m)
    (ht : p.thumbWidth = num t) (hw : st.width = num w)
    (htv : st.thumbValue = num tv) (hpr : st.progress = num pr)
    (h0t : 0 ≤ t) (htw : t ≤ w) :
    (jle (num (-t/2)) (Slide.thumbTranslateX p st) = true ∧
      jle (Slide.thumbTranslateX p st) (num (w - t)) = true) ∧
    (p.disableTrackFollow = true →
      jle (num 0) (Slide.thumbTranslateX p st) = true) ∧
    (jle (num 0) (Part000.thumbTranslateX p st) = true ∧
      jle (Part000.thumbTranslateX p st) (num (w - t)) = true) := by
  have h0wt : (0:ℚ) ≤ w - t := by linarith
  have hhalf : -t/2 ≤ 0 := by linarith
  have hPV : ∃ q : ℚ, Slide.progressToValue p st st.progress = num q := by
    unfold Slide.progressToValue Slide.sliderTotalValue
    rw [hmax, hmin, jadd_num, hpr, hw]
    by_cases hT : m + n = 0
    · exact ⟨0, by simp [hT]⟩
    · exact ⟨pr / (m + n) * w, by simp [hT, jdiv_num pr hT]⟩
  have hPV0 : ∃ q : ℚ, Part000.progressToValue p st st.progress = num q := by
    unfold Part000.progressToValue Part000.sliderTotalValue
    rw [hmax, hmin, jadd_num, hpr, hw, ht]
    by_cases hT : m + n = 0
    · exact ⟨0, by simp [hT]⟩
    · exact ⟨pr / (m + n) * (w - t), by simp [hT, jsub_num, jdiv_num pr hT]⟩
  obtain ⟨q1, hq1⟩ := hPV
  obtain ⟨q2, hq2⟩ := hPV0
  have half2 : (2:ℚ) ≠ 0 := by norm_num
  cases hdtf : p.disableTrackFollow with
  | true =>
    unfold Slide.thumbTranslateX Part000.thumbTranslateX
    rw [hdtf]
    simp only [if_true, htv, hw, ht, jsub_num, clamp_num, jle_num,
      decide_eq_true_eq]
    refine ⟨⟨?_, (clamp_num_bounds tv h0wt).2⟩, fun _ => ?_, ?_⟩
    · have := (clamp_num_bounds tv h0wt).1
      linarith
    · exact (clamp_num_bounds tv h0wt).1
    · exact clamp_num_bounds tv h0wt
  | false =>
    unfold Slide.thumbTranslateX Part000.thumbTranslateX
    rw [hdtf]
    simp only [Bool.false_eq_true, if_false]
    rw [hq1, hq2, ht, hw, jneg_num, jdiv_num (-t) half2, jsub_num, jsub_num,
      clamp_num, clamp_num]
    simp only [jle_num, decide_eq_true_eq]
    have hlohi : -t/2 ≤ w - t := by linarith
    refine ⟨clamp_num_bounds (q1 - t) hlohi, fun hcontra => ?_, ?_⟩
    · simp [hdtf] at hcontra
    · exact clamp_num_bounds q2 h0wt

/-- Witness for C2 amended at the no-follow baseline configuration. -/
theorem c2_amended_thumb_offset_witness :
    (0:ℚ) ≤ 15 ∧ (15:ℚ) ≤ 100 ∧
    ((jle (num (-15/2)) (Slide.thumbTranslateX exPropsNoFollow exState) = true ∧
        jle (Slide.thumbTranslateX exPropsNoFollow exState) (num (100 - 15)) = true) ∧
      (exPropsNoFollow.disableTrackFollow = true →
        jle (num 0) (Slide.thumbTranslateX exPropsNoFollow exState) = true) ∧
      (jle (num 0) (Part000.thumbTranslateX exPropsNoFollow exState) = true ∧
        jle (Part000.thumbTranslateX exPropsNoFollow exState) (num (100 - 15)) = true)) :=
  ⟨by norm_num, by norm_num,
    c2_amended_thumb_offset exPropsNoFollow exState 0 100 100 15 0 0 rfl rfl rfl
      rfl rfl rfl (by norm_num) (by norm_num)⟩

/-- The baseline configuration with both bounds zero (minimumValue =
maximumValue = 0, a legal configuration under the claim's
minimumValue <= maximumValue). -/
def exPropsZeroBounds : Props := { exProps with maximumValue := num 0 }

/-- Counterexample to C3 as stated: with minimumValue = maximumValue = 0
(which satisfies minimumValue <= maximumValue) and track width 100 strictly
greater than thumb width 15, a gesture update at x = 50 delivers NaN to
onValueChange — shareValueToSeconds divides minimumValue by
sliderTotalValue() = 0 unguarded, and 0/0 is NaN — and NaN does not lie
within [0, 0]. -/
theorem c3_counterexample :
    (Slide.gestureOnUpdate exPropsZeroBounds exState (num 50)).2 =
      [Event.valueChange JSNum.nan] ∧
    jle exPropsZeroBounds.minimumValue JSNum.nan = false := by
  constructor
  · norm_num [Slide.gestureOnUpdate, Slide.onActiveSlider, Slide.xToProgress,
      Slide.shareValueToSeconds, Slide.sliderTotalValue, atEdge, clamp, jdiv,
      jmul, jadd, jmax, jmin, jle, jsub, jneg, exProps, exState,
      exPropsZeroBounds]
  · rfl

/-- C3 amended: on every gesture update at a finite position x, with
minimumValue <= maximumValue, track width strictly greater than thumb width,
and the bounds not both zero, every value delivered to onValueChange (the
result of shareValueToSeconds) lies within [minimumValue, maximumValue], in
both variants. -/
theorem c3_value_change_bounds (p : Props) (st : SState) (v : JSNum)
    (x n m w t : ℚ)
    (hmin : p.minimumValue = num n) (hmax : p.maximumValue = num m)
    (ht : p.thumbWidth = num t) (hw : st.width = num w)
    (hnm : n ≤ m) (hwt : t < w) (hne : ¬(n = 0 ∧ m = 0))
    (hd : p.disable = false) :
    (Event.valueChange v ∈ (Slide.gestureOnUpdate p st (num x)).2 →
      jle (num n) v = true ∧ jle v (num m) = true) ∧
    (Event.valueChange v ∈ (Part000.gestureOnUpdate p st (num x)).2 →
      jle (num n) v = true ∧ jle v (num m) = true) := by
  have hwt' : w ≠ t := (ne_of_lt hwt).symm
  constructor
  · intro hv
    rw [Slide.gestureOnUpdate_valueChange p st (num x) v hv]
    have hTV := Slide.gestureOnUpdate_thumbValue p st (num x) hd
    rw [hw, ht, jsub_num, clamp_num] at hTV
    have hW : (Slide.gestureOnUpdate p st (num x)).1.width = num w := by
      rw [Slide.gestureOnUpdate_width, hw]
    exact Slide.shareValueToSeconds_bounds p _ hmin hmax ht hW hTV hnm hwt' hne
  · intro hv
    rw [Part000.gestureOnUpdate_valueChange_p0 p st (num x) v hv,
      Part000.shareValueToSeconds_eq_slide]
    have hTV := Part000.gestureOnUpdate_thumbValue_p0 p st (num x) hd
    rw [hw, ht, jsub_num, clamp_num] at hTV
    have hW : (Part000.gestureOnUpdate p st (num x)).1.width = num w := by
      rw [Part000.gestureOnUpdate_width_p0, hw]
    exact Slide.shareValueToSeconds_bounds p _ hmin hmax ht hW hTV hnm hwt' hne

/-- Witness for C3 amended at the baseline configuration and x = 50. -/
theorem c3_value_change_bounds_witness :
    (0:ℚ) ≤ 100 ∧ (15:ℚ) < 100 ∧
    ((Event.valueChange (num (1000/17)) ∈
        (Slide.gestureOnUpdate exProps exState (num 50)).2 →
      jle (num 0) (num (1000/17)) = true ∧
        jle (num (1000/17)) (num 100) = true) ∧
     (Event.valueChange (num (1000/17)) ∈
        (Part000.gestureOnUpdate exProps exState (num 50)).2 →
      jle (num 0) (num (1000/17)) = true ∧
        jle (num (1000/17)) (num 100) = true)) :=
  ⟨by norm_num, by norm_num,
    c3_value_change_bounds exProps exState (num (1000/17)) 50 0 100 100 15
      rfl rfl rfl rfl (by norm_num) (by norm_num) (by norm_num) rfl⟩

/-- Counterexample to C6 as stated: with minimumValue = maximumValue = 0 the
slider's total value is zero, yet shareValueToSeconds returns NaN rather than
the neutral value 0 — its division minimumValue / sliderTotalValue() is
unguarded and 0/0 is NaN. -/
theorem c6_counterexample :
    Slide.shareValueToSeconds exPropsZeroBounds
      { exState with thumbValue := num 50 } = JSNum.nan ∧
    JSNum.nan ≠ num 0 := by
  constructor
  · norm_num [Slide.shareValueToSeconds, Slide.sliderTotalValue, clamp, jdiv,
      jmul, jadd, jmax, jmin, jsub, jneg, exProps, exState, exPropsZeroBounds]
  · intro h
    cases h

/-- C6 amended: when the slider's total value (maximumValue + minimumValue)
is zero, progressToValue returns the neutral 0 unconditionally (its division
is guarded); xToProgress returns 0 provided the track width differs from the
thumb width (and, for slide.tsx, step is unset); shareValueToSeconds returns
0 provided additionally minimumValue is nonzero with
minimumValue <= maximumValue — with minimumValue = maximumValue = 0 its
unguarded division produces NaN instead (see the counterexample). -/
theorem c6_degenerate_neutral (p : Props) (st : SState) (n m w t tv : ℚ)
    (ξ : ℚ) (v : JSNum)
    (hmin : p.minimumValue = num n) (hmax : p.maximumValue = num m)
    (ht : p.thumbWidth = num t) (hw : st.width = num w)
    (htv : st.thumbValue = num tv) (hT : m + n = 0) :
    Slide.progressToValue p st v = num 0 ∧
    Part000.progressToValue p st v = num 0 ∧
    (w ≠ t → p.step = Option.none →
      Slide.xToProgress p st (num ξ) = num 0 ∧
      Part000.xToProgress p st (num ξ) = num 0) ∧
    (w ≠ t → n ≤ m → n ≠ 0 →
      Slide.shareValueToSeconds p st = num 0 ∧
      Part000.shareValueToSeconds p st = num 0) := by
  have hguard : jeqZero (Slide.sliderTotalValue p) = true := by
    unfold Slide.sliderTotalValue
    rw [hmax, hmin, jadd_num, hT]
    simp
  refine ⟨?_, ?_, fun hwt hstep => ?_, fun hwt hnm hn0 => ?_⟩
  · unfold Slide.progressToValue
    rw [hguard]
    rfl
  · unfold Part000.progressToValue Part000.sliderTotalValue
    rw [hmax, hmin, jadd_num, hT]
    simp
  · have hwt' : w - t ≠ 0 := sub_ne_zero.mpr hwt
    constructor
    · unfold Slide.xToProgress Slide.sliderTotalValue
      rw [hstep, hmax, hmin, jadd_num, hT, hw, ht, jsub_num,
        jdiv_num ξ hwt', jmul_num, mul_zero]
    · unfold Part000.xToProgress Part000.sliderTotalValue
      rw [hmax, hmin, jadd_num, hT, hw, ht, jsub_num, jdiv_num ξ hwt',
        jmul_num, mul_zero]
  · have hwt' : w - t ≠ 0 := sub_ne_zero.mpr hwt
    have hnneg : n < 0 := by
      rcases lt_trichotomy n 0 with h | h | h
      · exact h
      · exact absurd h hn0
      · exfalso; linarith
    have hmpos : 0 ≤ m := by linarith
    have key : Slide.shareValueToSeconds p st = num 0 := by
      unfold Slide.shareValueToSeconds Slide.sliderTotalValue
      rw [hmax, hmin, jadd_num, hT, htv, hw, ht, jsub_num, jdiv_num tv hwt']
      have e1 : jdiv (num n) (num 0) = JSNum.inf false := by
        simp [jdiv, hn0, not_lt.mpr hnneg.le]
      rw [e1]
      dsimp only
      have e2 : jadd (num (tv / (w - t))) (JSNum.inf false) = JSNum.inf false := rfl
      rw [e2]
      have e3 : clamp (JSNum.inf false) (num 0) (num 1) = num 0 := by
        simp [clamp, jmax, jmin]
      rw [e3, jmul_num, zero_mul, clamp_num, max_eq_right hnneg.le,
        min_eq_left hmpos]
    exact ⟨key, by rw [Part000.shareValueToSeconds_eq_slide]; exact key⟩

/-- The baseline configuration with degenerate bounds [-50, 50]: the code's
total value maximumValue + minimumValue is zero. -/
def exPropsDegenerate : Props :=
  { exProps with minimumValue := num (-50), maximumValue := num 50 }

/-- Witness for C6 amended at bounds [-50, 50] (total value 0), width 100,
thumbWidth 15, thumbValue 30, probe position 42. -/
theorem c6_degenerate_neutral_witness :
    (50:ℚ) + (-50) = 0 ∧
    (Slide.progressToValue exPropsDegenerate
        { exState with thumbValue := num 30 } (num 7) = num 0 ∧
      Part000.progressToValue exPropsDegenerate
        { exState with thumbValue := num 30 } (num 7) = num 0 ∧
      ((100:ℚ) ≠ 15 → exPropsDegenerate.step = Option.none →
        Slide.xToProgress exPropsDegenerate
          { exState with thumbValue := num 30 } (num 42) = num 0 ∧
        Part000.xToProgress exPropsDegenerate
          { exState with thumbValue := num 30 } (num 42) = num 0) ∧
      ((100:ℚ) ≠ 15 → (-50:ℚ) ≤ 50 → (-50:ℚ) ≠ 0 →
        Slide.shareValueToSeconds exPropsDegenerate
          { exState with thumbValue := num 30 } = num 0 ∧
        Part000.shareValueToSeconds exPropsDegenerate
          { exState with thumbValue := num 30 } = num 0)) :=
  ⟨by norm_num,
    c6_degenerate_neutral exPropsDegenerate { exState with thumbValue := num 30 }
      (-50) 50 100 15 30 42 (num 7) rfl rfl rfl rfl rfl (by norm_num)⟩

theorem Slide.singleTapOnEnd_progress (p : Props) (st : SState) (x : JSNum)
    (hd : p.disable = false) (hdt : p.disableTapEvent = false) :
    (Slide.singleTapOnEnd p st x true).1.progress =
      (if jfrac ((Slide.onActiveSlider p st x).1.progress)
        then jround ((Slide.onActiveSlider p st x).1.progress)
        else (Slide.onActiveSlider p st x).1.progress) := by
  unfold Slide.singleTapOnEnd
  dsimp only
  simp only [hd, hdt, Bool.or_self, Bool.false_eq_true, if_false, if_true]
  cases hsc : p.hasIsScrubbing <;>
    simp only [hsc, Bool.false_eq_true, if_false, if_true] <;>
    rw [Slide.snapRound_progress]

/-- The baseline configuration with step = 2, bounds [0, 1], and
disableTrackFollow set. -/
def exPropsStep : Props :=
  { exProps with
    step := some 2, maximumValue := num 1, disableTrackFollow := true }

/-- A state of the stepped slider right before release: width 100, the
markLeftArr the reaction computes for that width (certified below), and
thumbIndex 1. -/
def exStateStep : SState :=
  { exState with markLeftArr := [num (-5), num 43, num 91], thumbIndex := 1 }

/-- Counterexample to C4 as stated: with step = 2 over bounds [0, 1] the
value marks of the step partition are 0, 1/2, 1, but releasing the pan
gesture leaves progress = 43 — xToProgress returns the mark screen position
markLeftArr[thumbIndex] (already an integer here, so the release block's
Math.round leaves it), which is not the value of any mark, let alone the
nearest one.  The first conjunct certifies that [−5, 43, 91] is exactly the
markLeftArr the reaction computes for width 100. -/
theorem c4_counterexample :
    Slide.markLeftArrOf exPropsStep (num 100) = [num (-5), num 43, num 91] ∧
    (Slide.gestureOnEnd exPropsStep exStateStep (num 70)).1.progress = num 43 ∧
    num 43 ∉ (stepMarkValues 0 1 2).map JSNum.num := by
  refine ⟨?_, ?_, ?_⟩
  · have f0 : (⌊(1:ℚ)/2⌋ : ℤ) = 0 := by
      rw [Int.floor_eq_iff]
      norm_num
    have f1 : (⌊(101:ℚ)/2⌋ : ℤ) = 50 := by
      rw [Int.floor_eq_iff]
      norm_num
    have f2 : (⌊(201:ℚ)/2⌋ : ℤ) = 100 := by
      rw [Int.floor_eq_iff]
      norm_num
    have f3 : (⌊(11:ℚ)/2⌋ : ℤ) = 5 := by
      rw [Int.floor_eq_iff]
      norm_num
    unfold Slide.markLeftArrOf
    norm_num [exProps, exPropsStep, List.range_succ, jdiv, jmul, jround, jsub,
      jadd, jneg, f0, f1, f2, f3]
  · have hx2p : Slide.xToProgress exPropsStep exStateStep (num 70) = num 43 := by
      unfold Slide.xToProgress
      norm_num [exPropsStep, exStateStep, exProps, exState, List.getD]
    rw [Slide.gestureOnEnd_progress exPropsStep exStateStep (num 70) rfl]
    have hdtf : exPropsStep.disableTrackFollow = true := rfl
    simp only [hdtf, if_true, hx2p]
    rfl
  · norm_num [stepMarkValues, List.range_succ]

/-- C4 amended: on gesture release (pan end or finished tap, not disabled)
the snapping applied to progress is integer rounding, not mark snapping: if
the value the release block sees (at pan end the possibly reassigned
xToProgress(x) under disableTrackFollow, at tap end the progress left by
onActiveSlider) is a finite number q, the final progress is q itself when q
is an integer and Math.round(q) otherwise — in both cases an integer-valued
result, regardless of where the step partition's marks lie. -/
theorem c4_release_rounds_to_integer (p : Props) (st : SState) (x : JSNum)
    (q1 q2 : ℚ) (hd : p.disable = false) (hdt : p.disableTapEvent = false)
    (h1 : (if p.disableTrackFollow then Slide.xToProgress p st x
           else st.progress) = num q1)
    (h2 : (Slide.onActiveSlider p st x).1.progress = num q2) :
    (Slide.gestureOnEnd p st x).1.progress =
      num (if q1.den = 1 then q1 else ((⌊q1 + 1/2⌋ : ℤ) : ℚ)) ∧
    (Slide.singleTapOnEnd p st x true).1.progress =
      num (if q2.den = 1 then q2 else ((⌊q2 + 1/2⌋ : ℤ) : ℚ)) ∧
    (if q1.den = 1 then q1 else ((⌊q1 + 1/2⌋ : ℤ) : ℚ)).den = 1 ∧
    (if q2.den = 1 then q2 else ((⌊q2 + 1/2⌋ : ℤ) : ℚ)).den = 1 := by
  refine ⟨?_, ?_, ?_, ?_⟩
  · rw [Slide.gestureOnEnd_progress p st x hd, h1]
    by_cases hq : q1.den = 1 <;> simp [hq]
  · rw [Slide.singleTapOnEnd_progress p st x hd hdt, h2]
    by_cases hq : q2.den = 1 <;> simp [hq]
  · by_cases hq : q1.den = 1 <;> simp [hq, Rat.den_intCast]
  · by_cases hq : q2.den = 1 <;> simp [hq, Rat.den_intCast]

/-- Witness for C4 amended at the stepped configuration: pan end sees the
mark position 43 (integral, so kept), tap end sees progress 0. -/
theorem c4_release_rounds_to_integer_witness :
    exPropsStep.disable = false ∧
    ((Slide.gestureOnEnd exPropsStep exStateStep (num 70)).1.progress =
        num (if (43:ℚ).den = 1 then (43:ℚ) else ((⌊(43:ℚ) + 1/2⌋ : ℤ) : ℚ)) ∧
      (Slide.singleTapOnEnd exPropsStep exStateStep (num 70) true).1.progress =
        num (if (0:ℚ).den = 1 then (0:ℚ) else ((⌊(0:ℚ) + 1/2⌋ : ℤ) : ℚ)) ∧
      (if (43:ℚ).den = 1 then (43:ℚ) else ((⌊(43:ℚ) + 1/2⌋ : ℤ) : ℚ)).den = 1 ∧
      (if (0:ℚ).den = 1 then (0:ℚ) else ((⌊(0:ℚ) + 1/2⌋ : ℤ) : ℚ)).den = 1) :=
  ⟨rfl,
    c4_release_rounds_to_integer exPropsStep exStateStep (num 70) 43 0 rfl rfl
      (by
        have hx2p : Slide.xToProgress exPropsStep exStateStep (num 70) =
            num 43 := by
          unfold Slide.xToProgress
          norm_num [exPropsStep, exStateStep, exProps, exState, List.getD]
        have hdtf : exPropsStep.disableTrackFollow = true := rfl
        simp only [hdtf, if_true, hx2p])
      ((Slide.onActiveSlider_progress_noFollow exPropsStep exStateStep
        (num 70) rfl).trans rfl)⟩

theorem getD_map_range {α : Type} (f : Nat → α) (k i : Nat) (d : α)
    (h : i < k) :
    ((List.range k).map f).getD i d = f i := by
  have hlen : i < ((List.range k).map f).length := by simpa using h
  rw [List.getD_eq_getElem _ _ hlen]
  simp

theorem Slide.markLeftArrOf_eval (p : Props) (n : Nat) (w mw t : ℚ)
    (hstep : p.step = some n) (hn0 : n ≠ 0)
    (hmw : p.markWidth = num mw) (ht : p.thumbWidth = num t) :
    Slide.markLeftArrOf p (num w) =
      (List.range (n + 1)).map (fun (i : Nat) =>
        num (((⌊w * ((i:ℚ)/(n:ℚ)) + 1/2⌋ : ℤ) : ℚ) - ((i:ℚ)/(n:ℚ)) * mw -
          ((⌊t/3 + 1/2⌋ : ℤ) : ℚ))) := by
  unfold Slide.markLeftArrOf
  rw [hstep]
  dsimp only
  rw [if_neg hn0]
  refine congrArg (fun f => List.map f (List.range (n + 1))) (funext fun i => ?_)
  rw [ht, hmw]
  have h3 : (3:ℚ) ≠ 0 := by norm_num
  rw [jdiv_num t h3]
  simp

/-- C7 amended: for every step >= 1 and every track width at least
markWidth + step (track width merely greater than mark width is not enough —
see the counterexample), the markLeftArr sequence has exactly step + 1
entries and is strictly increasing in the mark index, so the step count
partitions the track into step intervals. -/
theorem c7_marks_strictly_increasing (p : Props) (n : Nat) (w mw t : ℚ)
    (i j : Nat)
    (hstep : p.step = some n) (hn : 1 ≤ n)
    (hmw : p.markWidth = num mw) (ht : p.thumbWidth = num t)
    (hwide : mw + n ≤ w) (hij : i < j) (hj : j < n + 1) :
    (Slide.markLeftArrOf p (num w)).length = n + 1 ∧
    jlt ((Slide.markLeftArrOf p (num w)).getD i JSNum.nan)
      ((Slide.markLeftArrOf p (num w)).getD j JSNum.nan) = true := by
  have hn0 : n ≠ 0 := by omega
  have hnpos : (0:ℚ) < (n:ℚ) := by exact_mod_cast Nat.pos_of_ne_zero hn0
  have hlist := Slide.markLeftArrOf_eval p n w mw t hstep hn0 hmw ht
  set g : Nat → ℚ := fun i =>
    ((⌊w * ((i:ℚ)/(n:ℚ)) + 1/2⌋ : ℤ) : ℚ) - ((i:ℚ)/(n:ℚ)) * mw -
      ((⌊t/3 + 1/2⌋ : ℤ) : ℚ) with hg
  have key : ∀ k : Nat, g k < g (k + 1) := by
    intro k
    have hB := Int.sub_one_lt_floor (w * (((k:ℚ) + 1)/(n:ℚ)) + 1/2)
    have hA := Int.floor_le (w * ((k:ℚ)/(n:ℚ)) + 1/2)
    have hdiv : mw/(n:ℚ) ≤ w/(n:ℚ) - 1 := by
      have h1 : mw/(n:ℚ) ≤ (w - (n:ℚ))/(n:ℚ) := by
        apply (div_le_div_iff_of_pos_right hnpos).mpr
        linarith
      have h2 : (w - (n:ℚ))/(n:ℚ) = w/(n:ℚ) - 1 := by
        field_simp
      linarith
    have hBA : w * (((k:ℚ) + 1)/(n:ℚ)) + 1/2 =
        (w * ((k:ℚ)/(n:ℚ)) + 1/2) + w/(n:ℚ) := by ring
    have hgoal : g (k + 1) - g k =
        (((⌊w * (((k:ℚ) + 1)/(n:ℚ)) + 1/2⌋ : ℤ) : ℚ) -
          ((⌊w * ((k:ℚ)/(n:ℚ)) + 1/2⌋ : ℤ) : ℚ)) - mw/(n:ℚ) := by
      simp only [hg]
      push_cast
      ring
    have hpos : 0 < g (k + 1) - g k := by
      rw [hgoal]
      linarith [hB, hA, hdiv, hBA]
    linarith [hpos]
  have mono : StrictMono g := strictMono_nat_of_lt_succ key
  constructor
  · rw [hlist]
    simp
  · have hi : i < n + 1 := lt_trans hij hj
    rw [hlist, getD_map_range _ _ _ _ hi, getD_map_range _ _ _ _ hj]
    simp only [jlt_num, decide_eq_true_eq]
    exact mono hij

/-- The baseline configuration with step = 2 (markWidth 4, thumbWidth 15
from the defaults). -/
def exPropsMarks : Props := { exProps with step := some 2 }

/-- Counterexample to C7 as stated: step = 2 and track width 5 strictly
greater than mark width 4, yet the computed markLeftArr is [−5, −4, −4] —
the second and third marks coincide, so the sequence is not strictly
increasing in the mark index. -/
theorem c7_counterexample :
    Slide.markLeftArrOf exPropsMarks (num 5) = [num (-5), num (-4), num (-4)] ∧
    (4:ℚ) < 5 ∧
    jlt ((Slide.markLeftArrOf exPropsMarks (num 5)).getD 1 JSNum.nan)
      ((Slide.markLeftArrOf exPropsMarks (num 5)).getD 2 JSNum.nan) = false := by
  have f0 : (⌊(1:ℚ)/2⌋ : ℤ) = 0 := by
    rw [Int.floor_eq_iff]
    norm_num
  have f1 : (⌊(3:ℚ)⌋ : ℤ) = 3 := by
    rw [Int.floor_eq_iff]
    norm_num
  have f2 : (⌊(11:ℚ)/2⌋ : ℤ) = 5 := by
    rw [Int.floor_eq_iff]
    norm_num
  have hlist : Slide.markLeftArrOf exPropsMarks (num 5) =
      [num (-5), num (-4), num (-4)] := by
    unfold Slide.markLeftArrOf
    norm_num [exProps, exPropsMarks, List.range_succ, jdiv, jmul, jround, jsub,
      jadd, jneg, f0, f1, f2]
  refine ⟨hlist, by norm_num, ?_⟩
  rw [hlist]
  norm_num [List.getD]

/-- Witness for C7 amended: step = 2, width 100 >= markWidth 4 + 2, indices
0 < 2. -/
theorem c7_marks_strictly_increasing_witness :
    (1 ≤ 2 ∧ (4:ℚ) + (2:Nat) ≤ 100) ∧
    ((Slide.markLeftArrOf exPropsMarks (num 100)).length = 2 + 1 ∧
      jlt ((Slide.markLeftArrOf exPropsMarks (num 100)).getD 0 JSNum.nan)
        ((Slide.markLeftArrOf exPropsMarks (num 100)).getD 2 JSNum.nan) = true) :=
  ⟨⟨by norm_num, by norm_num⟩,
    c7_marks_strictly_increasing exPropsMarks 2 100 4 15 0 2 rfl (by norm_num)
      rfl rfl (by norm_num) (by norm_num) (by norm_num)⟩
